import Mathlib

/-!
Verification development for the Talos-Table kinetic sand table repository.

The repository drives a two-axis (rotation / in-out) stepper table over a
serial link.  Three scripts contain the kinematic step-conversion logic this
development embeds:

* `src/Pattern-To-Path-To-Motion/Point_to_Point_Motion.py` — relative
  point-to-point mover with a cumulative in/out step limit (namespace `PTP`);
* `src/Final-Demo-Files/Point_to_Point_Motion.py` — relative mover with a
  workspace annulus check, angle wrapping and inverted motor wiring
  (namespace `FD`);
* `src/Final-Demo-Files/Lin_Rot_Movement.py` — absolute-target mover with a
  persisted position record (namespace `LR`).

Numbers that are Python floats in the source are embedded as exact rationals
(`ℚ`); all decimal constants in the source are exactly representable.
Python's `int(...)` applied to a number is truncation toward zero (`pyInt`)
and Python 3's `round(...)` is round-half-to-even (`pyRound`).  Points are
modelled directly in polar form `(theta in degrees, r in mm)`: in the source
they are produced by `to_polar` (`math.atan2` / `math.hypot`), which is
transcendental and outside the embedding; every claim below is stated over
the polar pairs the conversion code consumes.
-/

/-- Python 3 `round` on an exact rational: round to nearest, ties to even. -/
def pyRound (q : ℚ) : ℤ :=
  if q - (⌊q⌋ : ℚ) < 1/2 then ⌊q⌋
  else if (1:ℚ)/2 < q - (⌊q⌋ : ℚ) then ⌊q⌋ + 1
  else if ⌊q⌋ % 2 = 0 then ⌊q⌋ else ⌊q⌋ + 1

/-- Python `int(...)` on an exact rational: truncation toward zero. -/
def pyInt (q : ℚ) : ℤ := if 0 ≤ q then ⌊q⌋ else ⌈q⌉

theorem pyRound_lo (q : ℚ) (n : ℤ) (h1 : ⌊q⌋ = n) (h2 : q - (n:ℚ) < 1/2) :
    pyRound q = n := by
  unfold pyRound
  rw [h1, if_pos h2]

theorem pyRound_hi (q : ℚ) (n : ℤ) (h1 : ⌊q⌋ = n) (h2 : (1:ℚ)/2 < q - (n:ℚ)) :
    pyRound q = n + 1 := by
  unfold pyRound
  rw [h1, if_neg (by linarith), if_pos h2]

theorem pyRound_tie_even (q : ℚ) (n : ℤ) (h1 : ⌊q⌋ = n) (h2 : q - (n:ℚ) = 1/2)
    (h3 : n % 2 = 0) : pyRound q = n := by
  unfold pyRound
  rw [h1, if_neg (by rw [h2]; exact lt_irrefl _), if_neg (by rw [h2]; exact lt_irrefl _),
    if_pos h3]

theorem pyRound_tie_odd (q : ℚ) (n : ℤ) (h1 : ⌊q⌋ = n) (h2 : q - (n:ℚ) = 1/2)
    (h3 : ¬ n % 2 = 0) : pyRound q = n + 1 := by
  unfold pyRound
  rw [h1, if_neg (by rw [h2]; exact lt_irrefl _), if_neg (by rw [h2]; exact lt_irrefl _),
    if_neg h3]

theorem pyInt_of_nonneg (q : ℚ) (h : 0 ≤ q) : pyInt q = ⌊q⌋ := if_pos h

theorem pyInt_of_neg (q : ℚ) (h : ¬ 0 ≤ q) : pyInt q = ⌈q⌉ := if_neg h

theorem pyRound_zero : pyRound 0 = 0 := by
  apply pyRound_lo 0 0 <;> norm_num

/-- Polar position as consumed by the conversion code: angle in degrees,
radius in millimetres. -/
structure Polar where
  theta : ℚ
  r : ℚ
deriving DecidableEq

/-- A single-axis serial command, as written by `send_command` /
`send_arduino_command`: the byte line `"r <steps>"` or `"i <steps>"`. -/
inductive Cmd
  | rot (steps : ℤ)
  | inout (steps : ℤ)
deriving DecidableEq

/-- Net rotation steps carried by a list of serial commands. -/
def sentRot : List Cmd → ℤ
  | [] => 0
  | Cmd.rot n :: cs => n + sentRot cs
  | Cmd.inout _ :: cs => sentRot cs

/-- Net in/out steps carried by a list of serial commands. -/
def sentInOut : List Cmd → ℤ
  | [] => 0
  | Cmd.rot _ :: cs => sentInOut cs
  | Cmd.inout n :: cs => n + sentInOut cs

/-- The command sequence a move issues: one `r` line then one `i` line,
each skipped when its step count is zero (the scripts guard every send with
`if steps:` / `!= 0`). -/
def cmdPair (r i : ℤ) : List Cmd :=
  (if r ≠ 0 then [Cmd.rot r] else []) ++ (if i ≠ 0 then [Cmd.inout i] else [])

namespace PTP

/-! Embedding of `src/Pattern-To-Path-To-Motion/Point_to_Point_Motion.py`:
the relative mover that enforces `MAX_INOUT_STEPS`. -/

def INOUT_STEPS_PER_MM : ℚ := 33
def ROTATION_DEG_PER_STEP : ℚ := 0.0679
/-- The source's compensation-ratio constant (in/out steps per rotation
step); renamed from the script's all-caps original for this development. -/
def COMPENSATION_FACTOR : ℚ := 0.3167
def MAX_INOUT_STEPS : ℤ := 4280

/-- Session state mutated by the GUI callbacks (`last_move`,
`total_rotation_steps`, `total_inout_steps`).  The start/end points are
passed to `execute_move` directly rather than stored, since the claims
quantify over the polar pair of a requested move. -/
structure State where
  last_move : ℤ × ℤ
  total_rotation_steps : ℤ
  total_inout_steps : ℤ
deriving DecidableEq

def initState : State := ⟨(0, 0), 0, 0⟩

/-- Local `rotation_steps` of `execute_move`:
`int(round(delta_theta / ROTATION_DEG_PER_STEP))`. -/
def rotation_steps (p1 p2 : Polar) : ℤ :=
  pyRound ((p2.theta - p1.theta) / ROTATION_DEG_PER_STEP)

/-- Local `inout_steps` of `execute_move`:
`int(round(delta_r * INOUT_STEPS_PER_MM))`. -/
def inout_steps (p1 p2 : Polar) : ℤ :=
  pyRound ((p2.r - p1.r) * INOUT_STEPS_PER_MM)

/-- Local `compensation_steps` of `execute_move`:
`int(round(COMPENSATION_FACTOR * rotation_steps))`. -/
def compensation_steps (p1 p2 : Polar) : ℤ :=
  pyRound (COMPENSATION_FACTOR * (rotation_steps p1 p2 : ℚ))

/-- Local `compensated_inout_steps` of `execute_move`. -/
def compensated_inout_steps (p1 p2 : Polar) : ℤ :=
  inout_steps p1 p2 - compensation_steps p1 p2

structure ExecResult where
  state : State
  sent : List Cmd
  rejected : Bool
deriving DecidableEq

/-- `execute_move` of the Pattern-To-Path-To-Motion tool, for a requested
move from polar `p1` to polar `p2`.  If the predicted cumulative in/out
total exceeds `MAX_INOUT_STEPS` in absolute value the move is rejected with
no command sent and no state change; otherwise each nonzero axis command is
sent, the totals are incremented, and the negated pair is remembered in
`last_move` for undo. -/
def execute_move (s : State) (p1 p2 : Polar) : ExecResult :=
  if MAX_INOUT_STEPS < |s.total_inout_steps + compensated_inout_steps p1 p2| then
    ⟨s, [], true⟩
  else
    ⟨{ last_move := (-(rotation_steps p1 p2), -(compensated_inout_steps p1 p2))
       total_rotation_steps :=
         if rotation_steps p1 p2 ≠ 0 then s.total_rotation_steps + rotation_steps p1 p2
         else s.total_rotation_steps
       total_inout_steps :=
         if compensated_inout_steps p1 p2 ≠ 0 then
           s.total_inout_steps + compensated_inout_steps p1 p2
         else s.total_inout_steps },
     cmdPair (rotation_steps p1 p2) (compensated_inout_steps p1 p2),
     false⟩

structure UndoResult where
  state : State
  sent : List Cmd
  nothingToUndo : Bool
deriving DecidableEq

/-- `undo_move` of the Pattern-To-Path-To-Motion tool: re-sends the stored
(negated) `last_move` pair, adds it to the totals, and clears `last_move`;
a no-op reporting "No move to undo." when `last_move = (0, 0)`. -/
def undo_move (s : State) : UndoResult :=
  if s.last_move.1 = 0 ∧ s.last_move.2 = 0 then
    ⟨s, [], true⟩
  else
    ⟨{ last_move := (0, 0)
       total_rotation_steps :=
         if s.last_move.1 ≠ 0 then s.total_rotation_steps + s.last_move.1
         else s.total_rotation_steps
       total_inout_steps :=
         if s.last_move.2 ≠ 0 then s.total_inout_steps + s.last_move.2
         else s.total_inout_steps },
     cmdPair s.last_move.1 s.last_move.2,
     false⟩

/-- `reset_graph` as far as session state is concerned: totals and
`last_move` return to zero. -/
def reset_graph (_ : State) : State := initState

/-- One user operation on the session: an executed move request with its
polar endpoints, an undo, or a reset. -/
inductive Op
  | move (p1 p2 : Polar)
  | undo
  | reset

def stepOp (s : State) : Op → State
  | Op.move p1 p2 => (execute_move s p1 p2).state
  | Op.undo => (undo_move s).state
  | Op.reset => reset_graph s

/-- The session state after a sequence of user operations. -/
def runOps (s : State) (ops : List Op) : State := ops.foldl stepOp s

end PTP

namespace FD

/-! Embedding of `src/Final-Demo-Files/Point_to_Point_Motion.py`: the
relative mover with workspace annulus check, angle wrap and inverted motor
wiring.  Its `send_arduino_command` catches every exception raised by the
serial write and only pops a dialog, so a write failure never aborts the
caller; the boolean `writeFails` argument below selects whether every
attempted write raises, and `errorsReported` counts the resulting error
dialogs. -/

def INOUT_STEPS_PER_MM : ℚ := 33
def ROTATION_DEG_PER_STEP : ℚ := 0.0675
/-- The source's compensation-ratio constant (in/out steps per rotation
step); renamed from the script's all-caps original for this development. -/
def COMPENSATION_FACTOR : ℚ := 0.3167
def PLOT_LIMIT_MM : ℚ := 200
def WORKSPACE_RADIUS_MM : ℚ := 130
def INNER_LIMIT_RADIUS_MM : ℚ := 30

/-- Session state of the Final-Demo point-to-point tool.  The stored points
are kept (in polar form, as produced by `to_polar`) because `execute_move`
reads and rewrites them. -/
structure State where
  start_point : Option Polar
  end_point : Option Polar
  last_move_steps : ℤ × ℤ
  total_rotation_steps : ℤ
  total_inout_steps : ℤ
deriving DecidableEq

def initState : State := ⟨none, none, (0, 0), 0, 0⟩

/-- The angle wrap applied to `delta_theta_deg` in `execute_move`:
subtract 360 when above 180, add 360 when below -180. -/
def wrapDelta (d : ℚ) : ℚ :=
  if 180 < d then d - 360 else if d < -180 then d + 360 else d

/-- Wrapped `delta_theta_deg` for a move from `p1` to `p2`. -/
def delta_theta_deg (p1 p2 : Polar) : ℚ := wrapDelta (p2.theta - p1.theta)

/-- Local `logical_rotation_steps` of `execute_move`. -/
def logical_rotation_steps (p1 p2 : Polar) : ℤ :=
  pyRound (delta_theta_deg p1 p2 / ROTATION_DEG_PER_STEP)

/-- Local `logical_inout_steps_raw` of `execute_move`. -/
def logical_inout_steps_raw (p1 p2 : Polar) : ℤ :=
  pyRound ((p2.r - p1.r) * INOUT_STEPS_PER_MM)

/-- Local `compensation_adjustment_steps` of `execute_move`. -/
def compensation_adjustment_steps (p1 p2 : Polar) : ℤ :=
  pyRound (COMPENSATION_FACTOR * (logical_rotation_steps p1 p2 : ℚ))

/-- Local `logical_inout_steps_compensated` of `execute_move`. -/
def logical_inout_steps_compensated (p1 p2 : Polar) : ℤ :=
  logical_inout_steps_raw p1 p2 - compensation_adjustment_steps p1 p2

/-- The workspace test of `execute_move`:
`INNER_LIMIT_RADIUS_MM <= r <= WORKSPACE_RADIUS_MM` for both endpoints. -/
def inWorkspace (p1 p2 : Polar) : Prop :=
  INNER_LIMIT_RADIUS_MM ≤ p1.r ∧ p1.r ≤ WORKSPACE_RADIUS_MM ∧
    INNER_LIMIT_RADIUS_MM ≤ p2.r ∧ p2.r ≤ WORKSPACE_RADIUS_MM

instance (p1 p2 : Polar) : Decidable (inWorkspace p1 p2) := by
  unfold inWorkspace; infer_instance

inductive ExecStatus
  | executed
  | workspaceViolation
  | missingPoints
deriving DecidableEq

structure ExecResult where
  state : State
  sent : List Cmd
  errorsReported : ℕ
  status : ExecStatus
deriving DecidableEq

/-- `execute_move` of the Final-Demo tool.  Requires both points; rejects
(before any transmission, with no state change) when either endpoint radius
leaves the workspace annulus; otherwise sends the wiring-negated step pair
(one command per nonzero axis), adds the logical steps to the session
totals, stores the negated logical pair in `last_move_steps`, and shifts
`end_point` into `start_point`. -/
def execute_move (writeFails : Bool) (s : State) : ExecResult :=
  match s.start_point, s.end_point with
  | some p1, some p2 =>
    if inWorkspace p1 p2 then
      ⟨{ start_point := some p2
         end_point := none
         last_move_steps :=
           (-(logical_rotation_steps p1 p2), -(logical_inout_steps_compensated p1 p2))
         total_rotation_steps :=
           if -(logical_rotation_steps p1 p2) ≠ 0 then
             s.total_rotation_steps + logical_rotation_steps p1 p2
           else s.total_rotation_steps
         total_inout_steps :=
           if -(logical_inout_steps_compensated p1 p2) ≠ 0 then
             s.total_inout_steps + logical_inout_steps_compensated p1 p2
           else s.total_inout_steps },
       cmdPair (-(logical_rotation_steps p1 p2)) (-(logical_inout_steps_compensated p1 p2)),
       if writeFails then
         (cmdPair (-(logical_rotation_steps p1 p2))
           (-(logical_inout_steps_compensated p1 p2))).length
       else 0,
       ExecStatus.executed⟩
    else
      ⟨s, [], 0, ExecStatus.workspaceViolation⟩
  | _, _ => ⟨s, [], 0, ExecStatus.missingPoints⟩

structure UndoResult where
  state : State
  sent : List Cmd
  errorsReported : ℕ
  nothingToUndo : Bool
deriving DecidableEq

/-- `undo_last_move` of the Final-Demo tool: sends the negation of the
stored pair on the wire, adds the stored pair to the totals, clears
`last_move_steps` and both points; a no-op reporting "No move to undo"
when the stored pair is `(0, 0)`. -/
def undo_last_move (writeFails : Bool) (s : State) : UndoResult :=
  if s.last_move_steps.1 = 0 ∧ s.last_move_steps.2 = 0 then
    ⟨s, [], 0, true⟩
  else
    ⟨{ start_point := none
       end_point := none
       last_move_steps := (0, 0)
       total_rotation_steps :=
         if -(s.last_move_steps.1) ≠ 0 then s.total_rotation_steps + s.last_move_steps.1
         else s.total_rotation_steps
       total_inout_steps :=
         if -(s.last_move_steps.2) ≠ 0 then s.total_inout_steps + s.last_move_steps.2
         else s.total_inout_steps },
     cmdPair (-(s.last_move_steps.1)) (-(s.last_move_steps.2)),
     if writeFails then (cmdPair (-(s.last_move_steps.1)) (-(s.last_move_steps.2))).length
     else 0,
     false⟩

end FD

namespace LR

/-! Embedding of `src/Final-Demo-Files/Lin_Rot_Movement.py`: the
absolute-target mover whose position is persisted in a single-row SQLite
record.  Its `send_command` does NOT catch exceptions, so a raising serial
write propagates out of the `move_motors` callback; the embedding tracks
that with `raised`, and on a raise the remainder of `move_motors`
(including `update_position`) does not run. -/

def INOUT_STEPS_PER_MM : ℚ := 33
def ROTATION_DEG_PER_STEP : ℚ := 0.0679
/-- The source's compensation-ratio constant (in/out steps per rotation
step); renamed from the script's all-caps original for this development. -/
def COMPENSATION_FACTOR : ℚ := 0.3167
def MAX_INOUT_STEPS : ℤ := 4280

/-- The persisted position record `(theta, in_out)`; initialised to
`(0, 185)` by `initialize_database`. -/
structure DB where
  theta : ℚ
  in_out : ℚ
deriving DecidableEq

def initDB : DB := ⟨0, 185⟩

/-- Local `steps_theta` of `move_motors`:
`int(delta_theta / ROTATION_DEG_PER_STEP)` (Python `int` truncation). -/
def steps_theta (delta_theta : ℚ) : ℤ := pyInt (delta_theta / ROTATION_DEG_PER_STEP)

/-- Local `steps_in_out` of `move_motors`:
`int(delta_in_out * INOUT_STEPS_PER_MM - COMPENSATION_FACTOR * steps_theta)`. -/
def steps_in_out (delta_in_out : ℚ) (sTheta : ℤ) : ℤ :=
  pyInt (delta_in_out * INOUT_STEPS_PER_MM - COMPENSATION_FACTOR * (sTheta : ℚ))

structure MoveResult where
  db : DB
  sent : List Cmd
  raised : Bool
deriving DecidableEq

/-- `move_motors` of the absolute-target tool, for slider targets
`(targetTheta, targetInOut)` against the persisted record `db`.  Commands
are attempted in source order (rotation first); when `writeFails` is set an
attempted write raises, the exception propagates, and everything after it —
in particular `update_position` — is skipped, leaving the record as it
was. -/
def move_motors (writeFails : Bool) (targetTheta targetInOut : ℚ) (db : DB) :
    MoveResult :=
  if steps_theta (targetTheta - db.theta) ≠ 0 ∧ writeFails then
    ⟨db, [Cmd.rot (steps_theta (targetTheta - db.theta))], true⟩
  else if steps_in_out (targetInOut - db.in_out) (steps_theta (targetTheta - db.theta)) ≠ 0
      ∧ writeFails then
    ⟨db,
     (if steps_theta (targetTheta - db.theta) ≠ 0 then
        [Cmd.rot (steps_theta (targetTheta - db.theta))] else []) ++
       [Cmd.inout (steps_in_out (targetInOut - db.in_out) (steps_theta (targetTheta - db.theta)))],
     true⟩
  else
    ⟨⟨targetTheta, targetInOut⟩,
     cmdPair (steps_theta (targetTheta - db.theta))
       (steps_in_out (targetInOut - db.in_out) (steps_theta (targetTheta - db.theta))),
     false⟩

end LR

/-! Helper lemmas shared by the claim theorems. -/

theorem sentRot_cmdPair (r i : ℤ) : sentRot (cmdPair r i) = r := by
  unfold cmdPair
  split_ifs with h1 h2 h3 <;> simp [sentRot] <;> omega

theorem sentInOut_cmdPair (r i : ℤ) : sentInOut (cmdPair r i) = i := by
  unfold cmdPair
  split_ifs with h1 h2 h3 <;> simp [sentInOut] <;> omega

theorem addIfNonzero (t n : ℤ) : (if n ≠ 0 then t + n else t) = t + n := by
  split_ifs with h
  · rfl
  · push_neg at h
    omega

theorem addIfNegNonzero (t n : ℤ) : (if -n ≠ 0 then t + n else t) = t + n := by
  split_ifs with h
  · rfl
  · push_neg at h
    omega

theorem pyRound_int (n : ℤ) : pyRound (n : ℚ) = n :=
  pyRound_lo _ n (Int.floor_intCast n) (by norm_num)

theorem pyRound_eq_int (q : ℚ) (n : ℤ) (h : q = (n : ℚ)) : pyRound q = n := by
  rw [h, pyRound_int]

/-- `pyRound` rounds to a nearest integer, and at an exact tie the result is
even — the characterization of Python 3 banker's rounding. -/
theorem pyRound_nearest (q : ℚ) :
    |q - (pyRound q : ℚ)| ≤ 1/2 ∧ (|q - (pyRound q : ℚ)| = 1/2 → 2 ∣ pyRound q) := by
  have hf0 : (⌊q⌋ : ℚ) ≤ q := Int.floor_le q
  have hf1 : q < ⌊q⌋ + 1 := Int.lt_floor_add_one q
  unfold pyRound
  split_ifs with h1 h2 h3
  · rw [abs_of_nonneg (by linarith)]
    constructor
    · linarith
    · intro hh
      exfalso
      linarith
  · rw [abs_of_nonpos (by push_cast; linarith)]
    constructor
    · push_cast
      linarith
    · intro hh
      exfalso
      push_cast at hh
      linarith
  · have heq : q - (⌊q⌋ : ℚ) = 1/2 := by linarith
    rw [abs_of_nonneg (by linarith)]
    refine ⟨by linarith, fun _ => ?_⟩
    omega
  · have heq : q - (⌊q⌋ : ℚ) = 1/2 := by linarith
    rw [abs_of_nonpos (by push_cast; linarith)]
    constructor
    · push_cast
      linarith
    · intro _
      omega

/-! Behavioral lemmas for the PTP mover. -/

theorem ptp_execute_rejected (s : PTP.State) (p1 p2 : Polar)
    (h : PTP.MAX_INOUT_STEPS < |s.total_inout_steps + PTP.compensated_inout_steps p1 p2|) :
    PTP.execute_move s p1 p2 = ⟨s, [], true⟩ := by
  unfold PTP.execute_move
  rw [if_pos h]

theorem ptp_execute_accepted (s : PTP.State) (p1 p2 : Polar)
    (h : ¬ PTP.MAX_INOUT_STEPS < |s.total_inout_steps + PTP.compensated_inout_steps p1 p2|) :
    PTP.execute_move s p1 p2 =
      ⟨⟨(-(PTP.rotation_steps p1 p2), -(PTP.compensated_inout_steps p1 p2)),
        s.total_rotation_steps + PTP.rotation_steps p1 p2,
        s.total_inout_steps + PTP.compensated_inout_steps p1 p2⟩,
       cmdPair (PTP.rotation_steps p1 p2) (PTP.compensated_inout_steps p1 p2),
       false⟩ := by
  unfold PTP.execute_move
  rw [if_neg h, addIfNonzero, addIfNonzero]

theorem ptp_execute_of_not_rejected (s : PTP.State) (p1 p2 : Polar)
    (h : (PTP.execute_move s p1 p2).rejected = false) :
    PTP.execute_move s p1 p2 =
      ⟨⟨(-(PTP.rotation_steps p1 p2), -(PTP.compensated_inout_steps p1 p2)),
        s.total_rotation_steps + PTP.rotation_steps p1 p2,
        s.total_inout_steps + PTP.compensated_inout_steps p1 p2⟩,
       cmdPair (PTP.rotation_steps p1 p2) (PTP.compensated_inout_steps p1 p2),
       false⟩ := by
  by_cases hc : PTP.MAX_INOUT_STEPS < |s.total_inout_steps + PTP.compensated_inout_steps p1 p2|
  · rw [ptp_execute_rejected s p1 p2 hc] at h
    simp at h
  · exact ptp_execute_accepted s p1 p2 hc

theorem ptp_undo_nothing (s : PTP.State) (h : s.last_move = (0, 0)) :
    PTP.undo_move s = ⟨s, [], true⟩ := by
  unfold PTP.undo_move
  rw [if_pos (by rw [h]; exact ⟨rfl, rfl⟩)]

theorem ptp_undo_active (s : PTP.State) (h : ¬ (s.last_move.1 = 0 ∧ s.last_move.2 = 0)) :
    PTP.undo_move s =
      ⟨⟨(0, 0), s.total_rotation_steps + s.last_move.1,
        s.total_inout_steps + s.last_move.2⟩,
       cmdPair s.last_move.1 s.last_move.2, false⟩ := by
  unfold PTP.undo_move
  rw [if_neg h, addIfNonzero, addIfNonzero]

/-- The undo totals update collapses to an unconditional add of the stored
pair, because the skipped branches only skip adding zero. -/
theorem ptp_undo_state (s : PTP.State) :
    (PTP.undo_move s).state =
      ⟨(if s.last_move.1 = 0 ∧ s.last_move.2 = 0 then s.last_move else (0, 0)),
       s.total_rotation_steps + s.last_move.1,
       s.total_inout_steps + s.last_move.2⟩ := by
  by_cases h : s.last_move.1 = 0 ∧ s.last_move.2 = 0
  · rw [ptp_undo_nothing s (by rw [Prod.ext_iff]; exact h), if_pos h]
    obtain ⟨lm, tr, ti⟩ := s
    simp only at h
    simp only [PTP.State.mk.injEq]
    refine ⟨by trivial, by omega, by omega⟩
  · rw [ptp_undo_active s h, if_neg h]

theorem ptp_undo_sentRot (s : PTP.State) :
    sentRot (PTP.undo_move s).sent = s.last_move.1 := by
  by_cases h : s.last_move.1 = 0 ∧ s.last_move.2 = 0
  · rw [ptp_undo_nothing s (by rw [Prod.ext_iff]; exact h)]
    simp [sentRot, h.1]
  · rw [ptp_undo_active s h]
    exact sentRot_cmdPair _ _

theorem ptp_undo_sentInOut (s : PTP.State) :
    sentInOut (PTP.undo_move s).sent = s.last_move.2 := by
  by_cases h : s.last_move.1 = 0 ∧ s.last_move.2 = 0
  · rw [ptp_undo_nothing s (by rw [Prod.ext_iff]; exact h)]
    simp [sentInOut, h.2]
  · rw [ptp_undo_active s h]
    exact sentInOut_cmdPair _ _

/-! Behavioral lemmas for the FD mover. -/

theorem fd_execute_violation (wf : Bool) (s : FD.State) (p1 p2 : Polar)
    (h1 : s.start_point = some p1) (h2 : s.end_point = some p2)
    (hw : ¬ FD.inWorkspace p1 p2) :
    FD.execute_move wf s = ⟨s, [], 0, FD.ExecStatus.workspaceViolation⟩ := by
  obtain ⟨sp, ep, lm, tr, ti⟩ := s
  simp only at h1 h2
  subst h1
  subst h2
  simp only [FD.execute_move]
  rw [if_neg hw]

theorem fd_execute_executed (wf : Bool) (s : FD.State) (p1 p2 : Polar)
    (h1 : s.start_point = some p1) (h2 : s.end_point = some p2)
    (hw : FD.inWorkspace p1 p2) :
    FD.execute_move wf s =
      ⟨⟨some p2, none,
        (-(FD.logical_rotation_steps p1 p2), -(FD.logical_inout_steps_compensated p1 p2)),
        s.total_rotation_steps + FD.logical_rotation_steps p1 p2,
        s.total_inout_steps + FD.logical_inout_steps_compensated p1 p2⟩,
       cmdPair (-(FD.logical_rotation_steps p1 p2))
         (-(FD.logical_inout_steps_compensated p1 p2)),
       if wf then
         (cmdPair (-(FD.logical_rotation_steps p1 p2))
           (-(FD.logical_inout_steps_compensated p1 p2))).length
       else 0,
       FD.ExecStatus.executed⟩ := by
  obtain ⟨sp, ep, lm, tr, ti⟩ := s
  simp only at h1 h2
  subst h1
  subst h2
  simp only [FD.execute_move]
  rw [if_pos hw, addIfNegNonzero, addIfNegNonzero]

theorem fd_undo_nothing (wf : Bool) (s : FD.State) (h : s.last_move_steps = (0, 0)) :
    FD.undo_last_move wf s = ⟨s, [], 0, true⟩ := by
  unfold FD.undo_last_move
  rw [if_pos (by rw [h]; exact ⟨rfl, rfl⟩)]

theorem fd_undo_active (wf : Bool) (s : FD.State)
    (h : ¬ (s.last_move_steps.1 = 0 ∧ s.last_move_steps.2 = 0)) :
    FD.undo_last_move wf s =
      ⟨⟨none, none, (0, 0), s.total_rotation_steps + s.last_move_steps.1,
        s.total_inout_steps + s.last_move_steps.2⟩,
       cmdPair (-(s.last_move_steps.1)) (-(s.last_move_steps.2)),
       if wf then (cmdPair (-(s.last_move_steps.1)) (-(s.last_move_steps.2))).length else 0,
       false⟩ := by
  unfold FD.undo_last_move
  rw [if_neg h, addIfNegNonzero, addIfNegNonzero]

theorem fd_undo_trot (wf : Bool) (s : FD.State) :
    (FD.undo_last_move wf s).state.total_rotation_steps =
      s.total_rotation_steps + s.last_move_steps.1 := by
  by_cases h : s.last_move_steps.1 = 0 ∧ s.last_move_steps.2 = 0
  · rw [fd_undo_nothing wf s (by rw [Prod.ext_iff]; exact h)]
    simp [h.1]
  · rw [fd_undo_active wf s h]

theorem fd_undo_tinout (wf : Bool) (s : FD.State) :
    (FD.undo_last_move wf s).state.total_inout_steps =
      s.total_inout_steps + s.last_move_steps.2 := by
  by_cases h : s.last_move_steps.1 = 0 ∧ s.last_move_steps.2 = 0
  · rw [fd_undo_nothing wf s (by rw [Prod.ext_iff]; exact h)]
    simp [h.2]
  · rw [fd_undo_active wf s h]

theorem fd_undo_sentRot (wf : Bool) (s : FD.State) :
    sentRot (FD.undo_last_move wf s).sent = -(s.last_move_steps.1) := by
  by_cases h : s.last_move_steps.1 = 0 ∧ s.last_move_steps.2 = 0
  · rw [fd_undo_nothing wf s (by rw [Prod.ext_iff]; exact h)]
    simp [sentRot, h.1]
  · rw [fd_undo_active wf s h]
    exact sentRot_cmdPair _ _

theorem fd_undo_sentInOut (wf : Bool) (s : FD.State) :
    sentInOut (FD.undo_last_move wf s).sent = -(s.last_move_steps.2) := by
  by_cases h : s.last_move_steps.1 = 0 ∧ s.last_move_steps.2 = 0
  · rw [fd_undo_nothing wf s (by rw [Prod.ext_iff]; exact h)]
    simp [sentInOut, h.2]
  · rw [fd_undo_active wf s h]
    exact sentInOut_cmdPair _ _

theorem fd_undo_last_cleared (wf : Bool) (s : FD.State) :
    (FD.undo_last_move wf s).state.last_move_steps = (0, 0) := by
  by_cases h : s.last_move_steps.1 = 0 ∧ s.last_move_steps.2 = 0
  · rw [fd_undo_nothing wf s (by rw [Prod.ext_iff]; exact h), Prod.ext_iff]
    exact h
  · rw [fd_undo_active wf s h]

/-! Concrete evaluations used by the claim theorems and witnesses. -/

theorem lr_steps_theta_90 : LR.steps_theta ((90 : ℚ) - LR.initDB.theta) = 1325 := by
  unfold LR.steps_theta LR.ROTATION_DEG_PER_STEP LR.initDB
  rw [pyInt_of_nonneg _ (by norm_num)]
  norm_num [Int.floor_eq_iff]

theorem lr_steps_in_out_90 : LR.steps_in_out ((75 : ℚ) - LR.initDB.in_out) 1325 = -4049 := by
  unfold LR.steps_in_out LR.INOUT_STEPS_PER_MM LR.COMPENSATION_FACTOR LR.initDB
  rw [pyInt_of_neg _ (by norm_num)]
  norm_num [Int.ceil_eq_iff]

theorem lr_move_success_90 :
    LR.move_motors false 90 75 LR.initDB =
      ⟨⟨90, 75⟩, [Cmd.rot 1325, Cmd.inout (-4049)], false⟩ := by
  unfold LR.move_motors
  rw [lr_steps_theta_90, lr_steps_in_out_90]
  norm_num [cmdPair]

theorem lr_move_raises_90 :
    LR.move_motors true 90 75 LR.initDB = ⟨LR.initDB, [Cmd.rot 1325], true⟩ := by
  unfold LR.move_motors
  rw [lr_steps_theta_90]
  norm_num

theorem ptp_rot_small : PTP.rotation_steps ⟨0, 100⟩ ⟨0, 101⟩ = 0 := by
  unfold PTP.rotation_steps
  apply pyRound_eq_int
  norm_num [PTP.ROTATION_DEG_PER_STEP]

theorem ptp_inout_small : PTP.inout_steps ⟨0, 100⟩ ⟨0, 101⟩ = 33 := by
  unfold PTP.inout_steps
  apply pyRound_eq_int
  norm_num [PTP.INOUT_STEPS_PER_MM]

theorem ptp_comp_small : PTP.compensated_inout_steps ⟨0, 100⟩ ⟨0, 101⟩ = 33 := by
  unfold PTP.compensated_inout_steps PTP.compensation_steps
  rw [ptp_rot_small, ptp_inout_small]
  rw [pyRound_eq_int _ 0 (by norm_num [PTP.COMPENSATION_FACTOR])]
  norm_num

theorem ptp_rot_c1 : PTP.rotation_steps ⟨0, 50⟩ ⟨0, 650/11⟩ = 0 := by
  unfold PTP.rotation_steps
  apply pyRound_eq_int
  norm_num [PTP.ROTATION_DEG_PER_STEP]

theorem ptp_inout_c1 : PTP.inout_steps ⟨0, 50⟩ ⟨0, 650/11⟩ = 300 := by
  unfold PTP.inout_steps
  apply pyRound_eq_int
  norm_num [PTP.INOUT_STEPS_PER_MM]

theorem ptp_comp_c1 : PTP.compensated_inout_steps ⟨0, 50⟩ ⟨0, 650/11⟩ = 300 := by
  unfold PTP.compensated_inout_steps PTP.compensation_steps
  rw [ptp_rot_c1, ptp_inout_c1]
  rw [pyRound_eq_int _ 0 (by norm_num [PTP.COMPENSATION_FACTOR])]
  norm_num

theorem ptp_inout_tie : PTP.inout_steps ⟨0, 100⟩ ⟨0, 6601/66⟩ = 0 := by
  unfold PTP.inout_steps
  apply pyRound_tie_even _ 0
  · norm_num [PTP.INOUT_STEPS_PER_MM, Int.floor_eq_iff]
  · norm_num [PTP.INOUT_STEPS_PER_MM]
  · norm_num

theorem ptp_rot_tie : PTP.rotation_steps ⟨0, 100⟩ ⟨679/20000, 6601/66⟩ = 0 := by
  unfold PTP.rotation_steps
  apply pyRound_tie_even _ 0
  · norm_num [PTP.ROTATION_DEG_PER_STEP, Int.floor_eq_iff]
  · norm_num [PTP.ROTATION_DEG_PER_STEP]
  · norm_num

theorem ptp_rot_long_way : PTP.rotation_steps ⟨170, 100⟩ ⟨-170, 100⟩ = -5007 := by
  unfold PTP.rotation_steps
  rw [show (-5007 : ℤ) = -5008 + 1 by norm_num]
  apply pyRound_hi _ (-5008)
  · norm_num [PTP.ROTATION_DEG_PER_STEP, Int.floor_eq_iff]
  · norm_num [PTP.ROTATION_DEG_PER_STEP]

theorem pyRound_short_way : pyRound ((20 : ℚ) / PTP.ROTATION_DEG_PER_STEP) = 295 := by
  rw [show (295 : ℤ) = 294 + 1 by norm_num]
  apply pyRound_hi _ 294
  · norm_num [PTP.ROTATION_DEG_PER_STEP, Int.floor_eq_iff]
  · norm_num [PTP.ROTATION_DEG_PER_STEP]

theorem fd_wrap_170 : FD.delta_theta_deg ⟨170, 100⟩ ⟨-170, 100⟩ = 20 := by
  unfold FD.delta_theta_deg FD.wrapDelta
  norm_num

theorem fd_wrap_180 : FD.delta_theta_deg ⟨180, 100⟩ ⟨0, 100⟩ = -180 := by
  unfold FD.delta_theta_deg FD.wrapDelta
  norm_num

theorem fd_rot_small : FD.logical_rotation_steps ⟨0, 100⟩ ⟨0, 101⟩ = 0 := by
  unfold FD.logical_rotation_steps
  apply pyRound_eq_int
  norm_num [FD.delta_theta_deg, FD.wrapDelta, FD.ROTATION_DEG_PER_STEP]

theorem fd_raw_small : FD.logical_inout_steps_raw ⟨0, 100⟩ ⟨0, 101⟩ = 33 := by
  unfold FD.logical_inout_steps_raw
  apply pyRound_eq_int
  norm_num [FD.INOUT_STEPS_PER_MM]

theorem fd_comp_small : FD.logical_inout_steps_compensated ⟨0, 100⟩ ⟨0, 101⟩ = 33 := by
  unfold FD.logical_inout_steps_compensated FD.compensation_adjustment_steps
  rw [fd_rot_small, fd_raw_small]
  rw [pyRound_eq_int _ 0 (by norm_num [FD.COMPENSATION_FACTOR])]
  norm_num

theorem fd_ws_small : FD.inWorkspace ⟨0, 100⟩ ⟨0, 101⟩ := by
  norm_num [FD.inWorkspace, FD.INNER_LIMIT_RADIUS_MM, FD.WORKSPACE_RADIUS_MM]

theorem ptp_undo_trot (s : PTP.State) :
    (PTP.undo_move s).state.total_rotation_steps =
      s.total_rotation_steps + s.last_move.1 := by
  by_cases h : s.last_move.1 = 0 ∧ s.last_move.2 = 0
  · rw [ptp_undo_nothing s (by rw [Prod.ext_iff]; exact h)]
    simp [h.1]
  · rw [ptp_undo_active s h]

theorem ptp_undo_tinout (s : PTP.State) :
    (PTP.undo_move s).state.total_inout_steps =
      s.total_inout_steps + s.last_move.2 := by
  by_cases h : s.last_move.1 = 0 ∧ s.last_move.2 = 0
  · rw [ptp_undo_nothing s (by rw [Prod.ext_iff]; exact h)]
    simp [h.2]
  · rw [ptp_undo_active s h]

theorem ptp_undo_last_cleared (s : PTP.State) :
    (PTP.undo_move s).state.last_move = (0, 0) := by
  by_cases h : s.last_move.1 = 0 ∧ s.last_move.2 = 0
  · rw [ptp_undo_nothing s (by rw [Prod.ext_iff]; exact h), Prod.ext_iff]
    exact h
  · rw [ptp_undo_active s h]

theorem ptp_inout_tie2 : PTP.inout_steps ⟨0, 100⟩ ⟨679/20000, 6601/66⟩ = 0 := by
  unfold PTP.inout_steps
  apply pyRound_tie_even _ 0
  · norm_num [PTP.INOUT_STEPS_PER_MM, Int.floor_eq_iff]
  · norm_num [PTP.INOUT_STEPS_PER_MM]
  · norm_num

theorem fd_rot_tie : FD.logical_rotation_steps ⟨0, 100⟩ ⟨27/800, 6601/66⟩ = 0 := by
  unfold FD.logical_rotation_steps
  apply pyRound_tie_even _ 0
  · norm_num [FD.delta_theta_deg, FD.wrapDelta, FD.ROTATION_DEG_PER_STEP, Int.floor_eq_iff]
  · norm_num [FD.delta_theta_deg, FD.wrapDelta, FD.ROTATION_DEG_PER_STEP]
  · norm_num

theorem fd_raw_tie : FD.logical_inout_steps_raw ⟨0, 100⟩ ⟨27/800, 6601/66⟩ = 0 := by
  unfold FD.logical_inout_steps_raw
  apply pyRound_tie_even _ 0
  · norm_num [FD.INOUT_STEPS_PER_MM, Int.floor_eq_iff]
  · norm_num [FD.INOUT_STEPS_PER_MM]
  · norm_num

/-! The induction invariant behind the step-limit claim: the cumulative
in/out total is within the bound, and so is the total that an undo of the
stored last move would restore. -/

def InOutInvariant (s : PTP.State) : Prop :=
  |s.total_inout_steps| ≤ PTP.MAX_INOUT_STEPS ∧
    |s.total_inout_steps + s.last_move.2| ≤ PTP.MAX_INOUT_STEPS

theorem inOutInvariant_init : InOutInvariant PTP.initState := by
  unfold InOutInvariant PTP.initState PTP.MAX_INOUT_STEPS
  norm_num

theorem inOutInvariant_step (s : PTP.State) (op : PTP.Op)
    (h : InOutInvariant s) : InOutInvariant (PTP.stepOp s op) := by
  cases op with
  | move p1 p2 =>
    show InOutInvariant (PTP.execute_move s p1 p2).state
    by_cases hc :
        PTP.MAX_INOUT_STEPS < |s.total_inout_steps + PTP.compensated_inout_steps p1 p2|
    · rw [ptp_execute_rejected s p1 p2 hc]
      exact h
    · rw [ptp_execute_accepted s p1 p2 hc]
      unfold InOutInvariant at h ⊢
      dsimp only
      push_neg at hc
      simp only [abs_le] at h hc ⊢
      omega
  | undo =>
    show InOutInvariant (PTP.undo_move s).state
    rw [ptp_undo_state s]
    unfold InOutInvariant at h ⊢
    dsimp only
    by_cases hc : s.last_move.1 = 0 ∧ s.last_move.2 = 0
    · rw [if_pos hc]
      simp only [abs_le] at h ⊢
      have h2 := hc.2
      omega
    · rw [if_neg hc]
      simp only [abs_le] at h ⊢
      omega
  | reset =>
    show InOutInvariant PTP.initState
    exact inOutInvariant_init

theorem inOutInvariant_runOps (ops : List PTP.Op) :
    ∀ s : PTP.State, InOutInvariant s → InOutInvariant (PTP.runOps s ops) := by
  induction ops with
  | nil => exact fun s h => h
  | cons op rest ih => exact fun s h => ih _ (inOutInvariant_step s op h)

/-! Claim theorems. -/

/-- Claim C1: in the limit-enforcing relative-move tool, after every
completed operation of any sequence of executed moves, undos and resets the
cumulative in/out total satisfies `abs(total_inout_steps) <= 4280`; and any
proposed move whose projected total `total_inout_steps +
compensated_inout_steps` exceeds the bound in absolute value is rejected
with no command issued and the whole session state (in particular both
totals) unchanged. -/
theorem c1_step_limit_invariant :
    (∀ ops : List PTP.Op,
      |(PTP.runOps PTP.initState ops).total_inout_steps| ≤ PTP.MAX_INOUT_STEPS) ∧
    (∀ (s : PTP.State) (p1 p2 : Polar),
      PTP.MAX_INOUT_STEPS < |s.total_inout_steps + PTP.compensated_inout_steps p1 p2| →
      PTP.execute_move s p1 p2 = ⟨s, [], true⟩) := by
  constructor
  · intro ops
    exact (inOutInvariant_runOps ops PTP.initState inOutInvariant_init).1
  · exact ptp_execute_rejected

/-- Claim C1 witness: with `total_inout_steps = 4000` a move computing 300
compensated in/out steps (4300 > 4280) is rejected with the state unchanged,
and the initial (empty-sequence) state meets the bound. -/
theorem c1_step_limit_invariant_witness :
    PTP.execute_move ⟨(0, 0), 0, 4000⟩ ⟨0, 50⟩ ⟨0, 650/11⟩ =
      ⟨⟨(0, 0), 0, 4000⟩, [], true⟩ ∧
    |(PTP.runOps PTP.initState []).total_inout_steps| ≤ PTP.MAX_INOUT_STEPS := by
  constructor
  · exact c1_step_limit_invariant.2 ⟨(0, 0), 0, 4000⟩ ⟨0, 50⟩ ⟨0, 650/11⟩
      (by rw [ptp_comp_c1]; decide)
  · exact c1_step_limit_invariant.1 []

/-- Claim C2 counterexample: in the absolute-target converter the move from
`(theta 0, radius 185)` to `(theta 90, radius 75)` computes in/out steps
-4049, not the claimed -4050 (Python `int()` truncates -4049.6275 toward
zero). -/
theorem c2_counterexample :
    LR.steps_in_out ((75 : ℚ) - LR.initDB.in_out)
        (LR.steps_theta ((90 : ℚ) - LR.initDB.theta)) ≠ -4050 ∧
    (LR.move_motors false 90 75 LR.initDB).sent ≠ [Cmd.rot 1325, Cmd.inout (-4050)] := by
  constructor
  · rw [lr_steps_theta_90, lr_steps_in_out_90]
    decide
  · rw [lr_move_success_90]
    decide

/-- Claim C2 amended: with rotationDegPerStep 0.0679, inoutStepsPerMm 33 and
compensationRatio 0.3167, the move from current (theta 0, radius 185) to
target (theta 90, radius 75) yields rotationSteps = floor_toward_zero(90 /
0.0679) = 1325 and inOutSteps = floor_toward_zero((75-185)*33 -
0.3167*1325) = -4049 (truncation of -4049.6275 toward zero rounds up). -/
theorem c2_amended :
    LR.steps_theta ((90 : ℚ) - LR.initDB.theta) = 1325 ∧
    LR.steps_in_out ((75 : ℚ) - LR.initDB.in_out)
      (LR.steps_theta ((90 : ℚ) - LR.initDB.theta)) = -4049 ∧
    (LR.move_motors false 90 75 LR.initDB).sent = [Cmd.rot 1325, Cmd.inout (-4049)] := by
  refine ⟨lr_steps_theta_90, ?_, by rw [lr_move_success_90]⟩
  rw [lr_steps_theta_90, lr_steps_in_out_90]

/-- Modelled from the spec: rounding to the nearest integer with exact ties
rounded half away from zero — the tie rule the claim asserts for the
relative-move converter, stated here only for comparison with the code's
rounding. -/
def specRoundHalfAwayFromZero (q : ℚ) : ℤ :=
  if 0 ≤ q then ⌊q + 1/2⌋ else ⌈q - 1/2⌉

/-- Claim C3 counterexample: at the exact half-step tie `deltaRadius = 1/66
mm` (so `deltaRadius * 33 = 1/2`), the relative converter's
`int(round(...))` — Python 3 banker's rounding — yields 0, while the
claimed round-half-away-from-zero yields 1. -/
theorem c3_counterexample :
    PTP.inout_steps ⟨0, 100⟩ ⟨0, 6601/66⟩ ≠
      specRoundHalfAwayFromZero
        (((⟨0, 6601/66⟩ : Polar).r - (⟨0, 100⟩ : Polar).r) * PTP.INOUT_STEPS_PER_MM) := by
  rw [ptp_inout_tie]
  have hs : specRoundHalfAwayFromZero
      (((⟨0, 6601/66⟩ : Polar).r - (⟨0, 100⟩ : Polar).r) * PTP.INOUT_STEPS_PER_MM) = 1 := by
    unfold specRoundHalfAwayFromZero
    rw [if_pos (by norm_num [PTP.INOUT_STEPS_PER_MM])]
    norm_num [PTP.INOUT_STEPS_PER_MM, Int.floor_eq_iff]
  rw [hs]
  decide

/-- Claim C3 amended: in the relative-move converters (both the
Pattern-To-Path-To-Motion and the Final-Demo variants), rotationSteps and
inOutStepsRaw are nearest integers to deltaTheta / rotationDegPerStep and
deltaRadius * inoutStepsPerMm respectively, with an exact half-step tie
resolved to the even integer (Python 3 `round`), not half away from
zero. -/
theorem c3_amended : ∀ p1 p2 : Polar,
    (|(p2.theta - p1.theta) / PTP.ROTATION_DEG_PER_STEP - (PTP.rotation_steps p1 p2 : ℚ)| ≤ 1/2 ∧
      (|(p2.theta - p1.theta) / PTP.ROTATION_DEG_PER_STEP - (PTP.rotation_steps p1 p2 : ℚ)| = 1/2 →
        2 ∣ PTP.rotation_steps p1 p2)) ∧
    (|(p2.r - p1.r) * PTP.INOUT_STEPS_PER_MM - (PTP.inout_steps p1 p2 : ℚ)| ≤ 1/2 ∧
      (|(p2.r - p1.r) * PTP.INOUT_STEPS_PER_MM - (PTP.inout_steps p1 p2 : ℚ)| = 1/2 →
        2 ∣ PTP.inout_steps p1 p2)) ∧
    (|FD.delta_theta_deg p1 p2 / FD.ROTATION_DEG_PER_STEP - (FD.logical_rotation_steps p1 p2 : ℚ)| ≤ 1/2 ∧
      (|FD.delta_theta_deg p1 p2 / FD.ROTATION_DEG_PER_STEP - (FD.logical_rotation_steps p1 p2 : ℚ)| = 1/2 →
        2 ∣ FD.logical_rotation_steps p1 p2)) ∧
    (|(p2.r - p1.r) * FD.INOUT_STEPS_PER_MM - (FD.logical_inout_steps_raw p1 p2 : ℚ)| ≤ 1/2 ∧
      (|(p2.r - p1.r) * FD.INOUT_STEPS_PER_MM - (FD.logical_inout_steps_raw p1 p2 : ℚ)| = 1/2 →
        2 ∣ FD.logical_inout_steps_raw p1 p2)) := by
  intro p1 p2
  exact ⟨pyRound_nearest _, pyRound_nearest _, pyRound_nearest _, pyRound_nearest _⟩

/-- Claim C3 amended witness: at concrete exact ties each converter's result
is even (here 0), as the tie implications of the amended claim state. -/
theorem c3_amended_witness :
    2 ∣ PTP.rotation_steps ⟨0, 100⟩ ⟨679/20000, 6601/66⟩ ∧
    2 ∣ PTP.inout_steps ⟨0, 100⟩ ⟨679/20000, 6601/66⟩ ∧
    2 ∣ FD.logical_rotation_steps ⟨0, 100⟩ ⟨27/800, 6601/66⟩ ∧
    2 ∣ FD.logical_inout_steps_raw ⟨0, 100⟩ ⟨27/800, 6601/66⟩ := by
  obtain ⟨hA, hB, -, -⟩ := c3_amended ⟨0, 100⟩ ⟨679/20000, 6601/66⟩
  obtain ⟨-, -, hC, hD⟩ := c3_amended ⟨0, 100⟩ ⟨27/800, 6601/66⟩
  refine ⟨hA.2 ?_, hB.2 ?_, hC.2 ?_, hD.2 ?_⟩
  · rw [ptp_rot_tie]
    norm_num [PTP.ROTATION_DEG_PER_STEP]
  · rw [ptp_inout_tie2]
    norm_num [PTP.INOUT_STEPS_PER_MM]
  · rw [fd_rot_tie]
    norm_num [FD.delta_theta_deg, FD.wrapDelta, FD.ROTATION_DEG_PER_STEP]
  · rw [fd_raw_tie]
    norm_num [FD.INOUT_STEPS_PER_MM]

/-- Claim C4 counterexample: the wrap leaves a -180-degree difference
unchanged, so the wrapped delta is not always in (-180, 180]: from
startTheta = 180 (the `to_polar` angle of the negative x-axis) to endTheta
= 0 the wrapped delta is exactly -180. -/
theorem c4_counterexample :
    FD.delta_theta_deg ⟨180, 100⟩ ⟨0, 100⟩ = -180 ∧
    ¬(-180 < FD.delta_theta_deg ⟨180, 100⟩ ⟨0, 100⟩ ∧
        FD.delta_theta_deg ⟨180, 100⟩ ⟨0, 100⟩ ≤ 180) := by
  refine ⟨fd_wrap_180, ?_⟩
  rw [fd_wrap_180]
  norm_num

/-- Claim C4 amended: for start and end angles in the `to_polar` range
(-180, 180], the wrapped delta (endTheta - startTheta, minus 360 when above
180, plus 360 when below -180) lies in the closed range [-180, 180]; in
particular startTheta 170 and endTheta -170 wrap to exactly 20 degrees, not
-340. -/
theorem c4_amended :
    (∀ p1 p2 : Polar, -180 < p1.theta → p1.theta ≤ 180 →
      -180 < p2.theta → p2.theta ≤ 180 →
      -180 ≤ FD.delta_theta_deg p1 p2 ∧ FD.delta_theta_deg p1 p2 ≤ 180) ∧
    FD.delta_theta_deg ⟨170, 100⟩ ⟨-170, 100⟩ = 20 := by
  constructor
  · intro p1 p2 ha hb hc hd
    unfold FD.delta_theta_deg FD.wrapDelta
    split_ifs with h1 h2 <;> constructor <;> linarith
  · exact fd_wrap_170

/-- Claim C4 amended witness: the 170 to -170 crossing is wrapped to 20
degrees and lies inside [-180, 180]. -/
theorem c4_amended_witness :
    (-180 ≤ FD.delta_theta_deg ⟨170, 100⟩ ⟨-170, 100⟩ ∧
      FD.delta_theta_deg ⟨170, 100⟩ ⟨-170, 100⟩ ≤ 180) ∧
    FD.delta_theta_deg ⟨170, 100⟩ ⟨-170, 100⟩ = 20 := by
  refine ⟨c4_amended.1 ⟨170, 100⟩ ⟨-170, 100⟩ ?_ ?_ ?_ ?_, c4_amended.2⟩ <;> norm_num

/-- Claim C5: a requested relative move whose start or end radius lies
outside the annulus [30 mm, 130 mm] is rejected with a workspace violation
before any command is transmitted, and the session totals, last-move record
and stored points (the entire state) are unchanged. -/
theorem c5_workspace_violation :
    ∀ (wf : Bool) (s : FD.State) (p1 p2 : Polar),
      s.start_point = some p1 → s.end_point = some p2 →
      (p1.r < FD.INNER_LIMIT_RADIUS_MM ∨ FD.WORKSPACE_RADIUS_MM < p1.r ∨
        p2.r < FD.INNER_LIMIT_RADIUS_MM ∨ FD.WORKSPACE_RADIUS_MM < p2.r) →
      FD.execute_move wf s = ⟨s, [], 0, FD.ExecStatus.workspaceViolation⟩ := by
  intro wf s p1 p2 h1 h2 hr
  apply fd_execute_violation wf s p1 p2 h1 h2
  unfold FD.inWorkspace
  intro hw
  obtain ⟨w1, w2, w3, w4⟩ := hw
  rcases hr with h | h | h | h <;> linarith

/-- Claim C5 witness: an end point of radius 25 mm is rejected with a
workspace violation, leaving the nontrivial session state untouched. -/
theorem c5_workspace_violation_witness :
    FD.execute_move false ⟨some ⟨0, 100⟩, some ⟨0, 25⟩, (5, 7), 11, 13⟩ =
      ⟨⟨some ⟨0, 100⟩, some ⟨0, 25⟩, (5, 7), 11, 13⟩, [], 0,
        FD.ExecStatus.workspaceViolation⟩ := by
  apply c5_workspace_violation false _ ⟨0, 100⟩ ⟨0, 25⟩ rfl rfl
  right
  right
  left
  norm_num [FD.INNER_LIMIT_RADIUS_MM]

/-- Claim C6: in both relative movers, after an accepted move the first undo
transmits exactly the negation of what the move transmitted and clears the
stored last move to (0, 0); a second undo without an intervening move
transmits nothing on either axis, reports nothing to undo, and leaves the
whole state — in particular both session totals — unchanged. -/
theorem c6_double_undo :
    (∀ (s : PTP.State) (p1 p2 : Polar),
      (PTP.execute_move s p1 p2).rejected = false →
      sentRot (PTP.undo_move (PTP.execute_move s p1 p2).state).sent =
        -(sentRot (PTP.execute_move s p1 p2).sent) ∧
      sentInOut (PTP.undo_move (PTP.execute_move s p1 p2).state).sent =
        -(sentInOut (PTP.execute_move s p1 p2).sent) ∧
      (PTP.undo_move (PTP.execute_move s p1 p2).state).state.last_move = (0, 0) ∧
      PTP.undo_move (PTP.undo_move (PTP.execute_move s p1 p2).state).state =
        ⟨(PTP.undo_move (PTP.execute_move s p1 p2).state).state, [], true⟩) ∧
    (∀ (wf wf2 wf3 : Bool) (s : FD.State) (p1 p2 : Polar),
      s.start_point = some p1 → s.end_point = some p2 → FD.inWorkspace p1 p2 →
      sentRot (FD.undo_last_move wf2 (FD.execute_move wf s).state).sent =
        -(sentRot (FD.execute_move wf s).sent) ∧
      sentInOut (FD.undo_last_move wf2 (FD.execute_move wf s).state).sent =
        -(sentInOut (FD.execute_move wf s).sent) ∧
      (FD.undo_last_move wf2 (FD.execute_move wf s).state).state.last_move_steps = (0, 0) ∧
      FD.undo_last_move wf3 (FD.undo_last_move wf2 (FD.execute_move wf s).state).state =
        ⟨(FD.undo_last_move wf2 (FD.execute_move wf s).state).state, [], 0, true⟩) := by
  constructor
  · intro s p1 p2 hrej
    rw [ptp_execute_of_not_rejected s p1 p2 hrej]
    refine ⟨?_, ?_, ptp_undo_last_cleared _, ptp_undo_nothing _ (ptp_undo_last_cleared _)⟩
    · rw [ptp_undo_sentRot, sentRot_cmdPair]
    · rw [ptp_undo_sentInOut, sentInOut_cmdPair]
  · intro wf wf2 wf3 s p1 p2 h1 h2 hw
    rw [fd_execute_executed wf s p1 p2 h1 h2 hw]
    refine ⟨?_, ?_, fd_undo_last_cleared _ _, fd_undo_nothing _ _ (fd_undo_last_cleared _ _)⟩
    · rw [fd_undo_sentRot, sentRot_cmdPair]
    · rw [fd_undo_sentInOut, sentInOut_cmdPair]

/-- Claim C6 witness: a concrete accepted move in each tool followed by two
undos — the first undo reverses the transmitted in/out command and the
second transmits nothing and changes nothing. -/
theorem c6_double_undo_witness :
    (sentInOut (PTP.undo_move
        (PTP.execute_move PTP.initState ⟨0, 100⟩ ⟨0, 101⟩).state).sent =
      -(sentInOut (PTP.execute_move PTP.initState ⟨0, 100⟩ ⟨0, 101⟩).sent) ∧
     PTP.undo_move (PTP.undo_move
        (PTP.execute_move PTP.initState ⟨0, 100⟩ ⟨0, 101⟩).state).state =
      ⟨(PTP.undo_move (PTP.execute_move PTP.initState ⟨0, 100⟩ ⟨0, 101⟩).state).state,
       [], true⟩) ∧
    (sentInOut (FD.undo_last_move false
        (FD.execute_move false ⟨some ⟨0, 100⟩, some ⟨0, 101⟩, (0, 0), 0, 0⟩).state).sent =
      -(sentInOut (FD.execute_move false
          ⟨some ⟨0, 100⟩, some ⟨0, 101⟩, (0, 0), 0, 0⟩).sent) ∧
     FD.undo_last_move false (FD.undo_last_move false
        (FD.execute_move false ⟨some ⟨0, 100⟩, some ⟨0, 101⟩, (0, 0), 0, 0⟩).state).state =
      ⟨(FD.undo_last_move false
          (FD.execute_move false ⟨some ⟨0, 100⟩, some ⟨0, 101⟩, (0, 0), 0, 0⟩).state).state,
       [], 0, true⟩) := by
  have hrej : (PTP.execute_move PTP.initState ⟨0, 100⟩ ⟨0, 101⟩).rejected = false := by
    rw [ptp_execute_accepted _ _ _ (by rw [ptp_comp_small]; decide)]
  obtain ⟨-, hb, -, hd⟩ := c6_double_undo.1 PTP.initState ⟨0, 100⟩ ⟨0, 101⟩ hrej
  obtain ⟨-, hf, -, hh⟩ := c6_double_undo.2 false false false
    ⟨some ⟨0, 100⟩, some ⟨0, 101⟩, (0, 0), 0, 0⟩ ⟨0, 100⟩ ⟨0, 101⟩ rfl rfl fd_ws_small
  exact ⟨⟨hb, hd⟩, ⟨hf, hh⟩⟩

/-- Claim C7: in the wiring-inverted relative mover, an executed move
transmits the negations of the logical step counts while the session totals
are incremented by the logical, non-negated values. -/
theorem c7_wire_inversion :
    ∀ (wf : Bool) (s : FD.State) (p1 p2 : Polar),
      s.start_point = some p1 → s.end_point = some p2 → FD.inWorkspace p1 p2 →
      sentRot (FD.execute_move wf s).sent = -(FD.logical_rotation_steps p1 p2) ∧
      sentInOut (FD.execute_move wf s).sent = -(FD.logical_inout_steps_compensated p1 p2) ∧
      (FD.execute_move wf s).state.total_rotation_steps =
        s.total_rotation_steps + FD.logical_rotation_steps p1 p2 ∧
      (FD.execute_move wf s).state.total_inout_steps =
        s.total_inout_steps + FD.logical_inout_steps_compensated p1 p2 := by
  intro wf s p1 p2 h1 h2 hw
  rw [fd_execute_executed wf s p1 p2 h1 h2 hw]
  exact ⟨sentRot_cmdPair _ _, sentInOut_cmdPair _ _, rfl, rfl⟩

/-- Claim C7 witness: a concrete accepted move (logical in/out 33) transmits
-33 on the wire while the session total gains +33. -/
theorem c7_wire_inversion_witness :
    sentRot (FD.execute_move false
        ⟨some ⟨0, 100⟩, some ⟨0, 101⟩, (0, 0), 0, 0⟩).sent =
      -(FD.logical_rotation_steps ⟨0, 100⟩ ⟨0, 101⟩) ∧
    sentInOut (FD.execute_move false
        ⟨some ⟨0, 100⟩, some ⟨0, 101⟩, (0, 0), 0, 0⟩).sent =
      -(FD.logical_inout_steps_compensated ⟨0, 100⟩ ⟨0, 101⟩) ∧
    (FD.execute_move false
        ⟨some ⟨0, 100⟩, some ⟨0, 101⟩, (0, 0), 0, 0⟩).state.total_rotation_steps =
      (0 : ℤ) + FD.logical_rotation_steps ⟨0, 100⟩ ⟨0, 101⟩ ∧
    (FD.execute_move false
        ⟨some ⟨0, 100⟩, some ⟨0, 101⟩, (0, 0), 0, 0⟩).state.total_inout_steps =
      (0 : ℤ) + FD.logical_inout_steps_compensated ⟨0, 100⟩ ⟨0, 101⟩ :=
  c7_wire_inversion false ⟨some ⟨0, 100⟩, some ⟨0, 101⟩, (0, 0), 0, 0⟩
    ⟨0, 100⟩ ⟨0, 101⟩ rfl rfl fd_ws_small

/-- Claim C8 counterexample: in the absolute-target tool a raising serial
write propagates out of `move_motors` (its `send_command` has no handler),
so the persisted position record is NOT updated: for the 0,185 to 90,75
move it stays (0, 185) instead of becoming (90, 75) as it would on a
successful write. -/
theorem c8_counterexample :
    (LR.move_motors true 90 75 LR.initDB).raised = true ∧
    (LR.move_motors true 90 75 LR.initDB).db = LR.initDB ∧
    (LR.move_motors false 90 75 LR.initDB).db = ⟨90, 75⟩ ∧
    LR.initDB ≠ (⟨90, 75⟩ : LR.DB) := by
  refine ⟨?_, ?_, ?_, ?_⟩
  · rw [lr_move_raises_90]
  · rw [lr_move_raises_90]
  · rw [lr_move_success_90]
  · intro hcon
    rw [LR.initDB, LR.DB.mk.injEq] at hcon
    norm_num at hcon

/-- Claim C8 amended: in the relative-move tool a failing serial write is
caught inside `send_arduino_command`, one error is reported per attempted
write, and the move's bookkeeping (state and command computation) completes
exactly as if the writes had succeeded; in the absolute-target tool,
however, a raising write aborts `move_motors` whenever either step command
is nonzero, leaving the persisted position record unchanged. -/
theorem c8_amended :
    (∀ (wf : Bool) (s : FD.State),
      (FD.execute_move wf s).state = (FD.execute_move false s).state ∧
      (FD.execute_move wf s).sent = (FD.execute_move false s).sent ∧
      (FD.execute_move true s).errorsReported = (FD.execute_move true s).sent.length) ∧
    (∀ (tTheta tInOut : ℚ) (db : LR.DB),
      (LR.steps_theta (tTheta - db.theta) ≠ 0 ∨
        LR.steps_in_out (tInOut - db.in_out) (LR.steps_theta (tTheta - db.theta)) ≠ 0) →
      (LR.move_motors true tTheta tInOut db).raised = true ∧
      (LR.move_motors true tTheta tInOut db).db = db) := by
  constructor
  · intro wf s
    obtain ⟨sp, ep, lm, tr, ti⟩ := s
    cases sp with
    | none =>
      cases ep with
      | none => exact ⟨rfl, rfl, rfl⟩
      | some p2 => exact ⟨rfl, rfl, rfl⟩
    | some p1 =>
      cases ep with
      | none => exact ⟨rfl, rfl, rfl⟩
      | some p2 =>
        by_cases hw : FD.inWorkspace p1 p2
        · rw [fd_execute_executed wf _ p1 p2 rfl rfl hw,
            fd_execute_executed false _ p1 p2 rfl rfl hw,
            fd_execute_executed true _ p1 p2 rfl rfl hw]
          exact ⟨rfl, rfl, rfl⟩
        · rw [fd_execute_violation wf _ p1 p2 rfl rfl hw,
            fd_execute_violation false _ p1 p2 rfl rfl hw,
            fd_execute_violation true _ p1 p2 rfl rfl hw]
          exact ⟨rfl, rfl, rfl⟩
  · intro tTheta tInOut db h
    unfold LR.move_motors
    by_cases h1 : LR.steps_theta (tTheta - db.theta) ≠ 0
    · rw [if_pos ⟨h1, rfl⟩]
      exact ⟨rfl, rfl⟩
    · push_neg at h1
      rcases h with h | h
      · exact absurd h1 h
      · rw [if_neg fun hc => hc.1 h1, if_pos ⟨h, rfl⟩]
        exact ⟨rfl, rfl⟩

/-- Claim C8 amended witness: with failing writes, the relative tool's move
on a concrete state has identical state and commands to the successful run
and reports one error per command, while the absolute-target tool's 0,185
to 90,75 move raises and leaves the record at (0, 185). -/
theorem c8_amended_witness :
    ((FD.execute_move true ⟨some ⟨0, 100⟩, some ⟨0, 101⟩, (0, 0), 0, 0⟩).state =
        (FD.execute_move false ⟨some ⟨0, 100⟩, some ⟨0, 101⟩, (0, 0), 0, 0⟩).state ∧
      (FD.execute_move true ⟨some ⟨0, 100⟩, some ⟨0, 101⟩, (0, 0), 0, 0⟩).sent =
        (FD.execute_move false ⟨some ⟨0, 100⟩, some ⟨0, 101⟩, (0, 0), 0, 0⟩).sent ∧
      (FD.execute_move true ⟨some ⟨0, 100⟩, some ⟨0, 101⟩, (0, 0), 0, 0⟩).errorsReported =
        (FD.execute_move true ⟨some ⟨0, 100⟩, some ⟨0, 101⟩, (0, 0), 0, 0⟩).sent.length) ∧
    ((LR.move_motors true 90 75 LR.initDB).raised = true ∧
      (LR.move_motors true 90 75 LR.initDB).db = LR.initDB) := by
  refine ⟨c8_amended.1 true ⟨some ⟨0, 100⟩, some ⟨0, 101⟩, (0, 0), 0, 0⟩,
    c8_amended.2 90 75 LR.initDB (Or.inl ?_)⟩
  rw [lr_steps_theta_90]
  decide

/-- Claim C9: in the limit-enforcing relative mover the angle difference is
used unwrapped — rotation steps come straight from endTheta - startTheta —
so the 170 to -170 crossing is computed from -340 degrees (-5007 steps, the
long way around), not from the wrapped 20 degrees (295 steps). -/
theorem c9_unwrapped_delta :
    (∀ p1 p2 : Polar,
      PTP.rotation_steps p1 p2 =
        pyRound ((p2.theta - p1.theta) / PTP.ROTATION_DEG_PER_STEP)) ∧
    PTP.rotation_steps ⟨170, 100⟩ ⟨-170, 100⟩ = -5007 ∧
    pyRound ((20 : ℚ) / PTP.ROTATION_DEG_PER_STEP) = 295 ∧
    ((-5007 : ℤ) ≠ 295) :=
  ⟨fun _ _ => rfl, ptp_rot_long_way, pyRound_short_way, by decide⟩

/-- Claim C10: in both relative movers an accepted move followed immediately
by one undo returns both session totals exactly to their values before the
move. -/
theorem c10_undo_exact_inverse :
    (∀ (s : PTP.State) (p1 p2 : Polar),
      (PTP.execute_move s p1 p2).rejected = false →
      (PTP.undo_move (PTP.execute_move s p1 p2).state).state.total_rotation_steps =
        s.total_rotation_steps ∧
      (PTP.undo_move (PTP.execute_move s p1 p2).state).state.total_inout_steps =
        s.total_inout_steps) ∧
    (∀ (wf wf2 : Bool) (s : FD.State) (p1 p2 : Polar),
      s.start_point = some p1 → s.end_point = some p2 → FD.inWorkspace p1 p2 →
      (FD.undo_last_move wf2 (FD.execute_move wf s).state).state.total_rotation_steps =
        s.total_rotation_steps ∧
      (FD.undo_last_move wf2 (FD.execute_move wf s).state).state.total_inout_steps =
        s.total_inout_steps) := by
  constructor
  · intro s p1 p2 hrej
    rw [ptp_execute_of_not_rejected s p1 p2 hrej]
    rw [ptp_undo_trot, ptp_undo_tinout]
    constructor <;> simp
  · intro wf wf2 s p1 p2 h1 h2 hw
    rw [fd_execute_executed wf s p1 p2 h1 h2 hw]
    rw [fd_undo_trot, fd_undo_tinout]
    constructor <;> simp

/-- Claim C10 witness: a concrete accepted move then one undo in each tool
brings both totals back to their initial values. -/
theorem c10_undo_exact_inverse_witness :
    ((PTP.undo_move (PTP.execute_move PTP.initState ⟨0, 100⟩ ⟨0, 101⟩).state).state.total_rotation_steps =
        PTP.initState.total_rotation_steps ∧
      (PTP.undo_move (PTP.execute_move PTP.initState ⟨0, 100⟩ ⟨0, 101⟩).state).state.total_inout_steps =
        PTP.initState.total_inout_steps) ∧
    ((FD.undo_last_move false (FD.execute_move false
          ⟨some ⟨0, 100⟩, some ⟨0, 101⟩, (0, 0), 0, 0⟩).state).state.total_rotation_steps =
        (0 : ℤ) ∧
      (FD.undo_last_move false (FD.execute_move false
          ⟨some ⟨0, 100⟩, some ⟨0, 101⟩, (0, 0), 0, 0⟩).state).state.total_inout_steps =
        (0 : ℤ)) := by
  have hrej : (PTP.execute_move PTP.initState ⟨0, 100⟩ ⟨0, 101⟩).rejected = false := by
    rw [ptp_execute_accepted _ _ _ (by rw [ptp_comp_small]; decide)]
  exact ⟨c10_undo_exact_inverse.1 PTP.initState ⟨0, 100⟩ ⟨0, 101⟩ hrej,
    c10_undo_exact_inverse.2 false false ⟨some ⟨0, 100⟩, some ⟨0, 101⟩, (0, 0), 0, 0⟩
      ⟨0, 100⟩ ⟨0, 101⟩ rfl rfl fd_ws_small⟩
